import Mathlib

/-!
Verification of the obstacle-avoiding edge router of the LogicFlow
AvoidanceEdgePlugin.  The definitions below are a shallow embedding of the
JavaScript source (`AvoidanceEdgePlugin`): coordinates are modelled by
rationals, the boolean geometry tests and the candidate search of
`calculatePath` are translated function by function, with the early `break`
and `continue` statements of the nested loops rendered as structural
recursion over the offset lists.
-/

namespace AvoidanceEdge

/-- A 2-D point `{x, y}` with real-valued coordinates, modelled over `ℚ`. -/
structure Point where
  x : ℚ
  y : ℚ
deriving DecidableEq, Repr

/-- An axis-aligned bounding box `{minX, minY, maxX, maxY}` as returned by
`node.getBBox()`. -/
structure Rect where
  minX : ℚ
  minY : ℚ
  maxX : ℚ
  maxY : ℚ
deriving DecidableEq, Repr

/-- The inclusive point-in-rectangle test inlined in
`isLineIntersectingRect` (source lines 276 and 280-281):
`p.x >= rect.minX && p.x <= rect.maxX && p.y >= rect.minY && p.y <= rect.maxY`. -/
def pointInRectB (p : Point) (r : Rect) : Bool :=
  decide (r.minX ≤ p.x) && decide (p.x ≤ r.maxX) &&
  decide (r.minY ≤ p.y) && decide (p.y ≤ r.maxY)

/-- `orientation(p, q, r)` from `doLineSegmentsIntersect`:
`0` collinear, `1` clockwise (`val > 0`), `2` counter-clockwise. -/
def orientation (p q r : Point) : Nat :=
  let val := (q.y - p.y) * (r.x - q.x) - (q.x - p.x) * (r.y - q.y)
  if val = 0 then 0 else if 0 < val then 1 else 2

/-- `onSegment(p, q, r)`: `q` lies within the coordinate-wise bounding
extent of `p` and `r`. -/
def onSegment (p q r : Point) : Bool :=
  decide (q.x ≤ max p.x r.x) && decide (min p.x r.x ≤ q.x) &&
  decide (q.y ≤ max p.y r.y) && decide (min p.y r.y ≤ q.y)

/-- `doLineSegmentsIntersect(p1, p2, p3, p4)`: the orientation-based
segment-intersection test, including the four collinear special cases. -/
def doLineSegmentsIntersect (p1 p2 p3 p4 : Point) : Bool :=
  let o1 := orientation p1 p2 p3
  let o2 := orientation p1 p2 p4
  let o3 := orientation p3 p4 p1
  let o4 := orientation p3 p4 p2
  if o1 ≠ o2 ∧ o3 ≠ o4 then true
  else if o1 = 0 ∧ onSegment p1 p3 p2 then true
  else if o2 = 0 ∧ onSegment p1 p4 p2 then true
  else if o3 = 0 ∧ onSegment p3 p1 p4 then true
  else if o4 = 0 ∧ onSegment p3 p2 p4 then true
  else false

/-- `isLineIntersectingRect(p1, p2, rect)`: a zero-length segment is a
point-in-rect test; otherwise true when an endpoint lies inside the
rectangle or the segment crosses one of the four rectangle sides
(bottom, right, top, left — the order of the source's `segments` array). -/
def isLineIntersectingRect (p1 p2 : Point) (rect : Rect) : Bool :=
  if p1.x = p2.x ∧ p1.y = p2.y then pointInRectB p1 rect
  else if pointInRectB p1 rect then true
  else if pointInRectB p2 rect then true
  else
    doLineSegmentsIntersect p1 p2 ⟨rect.minX, rect.minY⟩ ⟨rect.maxX, rect.minY⟩ ||
    doLineSegmentsIntersect p1 p2 ⟨rect.maxX, rect.minY⟩ ⟨rect.maxX, rect.maxY⟩ ||
    doLineSegmentsIntersect p1 p2 ⟨rect.maxX, rect.maxY⟩ ⟨rect.minX, rect.maxY⟩ ||
    doLineSegmentsIntersect p1 p2 ⟨rect.minX, rect.maxY⟩ ⟨rect.minX, rect.minY⟩

/-- The consecutive point pairs of a path (the index pairs `(i, i+1)`
iterated by `isPathIntersectingNode`). -/
def segPairs : List Point → List (Point × Point)
  | [] => []
  | [_] => []
  | p :: q :: rest => (p, q) :: segPairs (q :: rest)

/-- `isPathIntersectingNode(pathPoints, node)`: some consecutive segment of
the path intersects the node's bounding box (false for paths of fewer than
two points). -/
def isPathIntersectingNode (pathPoints : List Point) (rect : Rect) : Bool :=
  (segPairs pathPoints).any fun pq => isLineIntersectingRect pq.1 pq.2 rect

/-- `checkAndCountObstructions(p)` from `calculatePath`: the number of
obstacle nodes whose bounding box is intersected by the path (each obstacle
contributes at most 1 however many segments cross it). -/
def checkAndCountObstructions (obstacles : List Rect) (p : List Point) : Nat :=
  obstacles.countP fun r => isPathIntersectingNode p r

/-- The fixed offset lattice of `calculatePath`:
`const offsets = [0, 20, -20, 40, -40, 60, -60]`. -/
def offsets : List ℚ := [0, 20, -20, 40, -40, 60, -60]

/-- The mutable pair `(bestPath, minObstructions)` of the path selector.
`none` is the initial `(null, Infinity)` state; the two variables are only
ever assigned together. -/
abbrev BestState := Option (List Point × Nat)

/-- One conditional assignment of the selector:
`if (obsCount < minObstructions) { minObstructions = obsCount; bestPath = path }`
(any finite count is below the `Infinity` initialization). -/
def updateBest (st : BestState) (path : List Point) (c : Nat) : BestState :=
  match st with
  | none => some (path, c)
  | some (b, m) => if c < m then some (path, c) else some (b, m)

/-- The loop-exit test `minObstructions === 0` (false in the `Infinity`
initial state). -/
def isMinZero (st : BestState) : Bool :=
  match st with
  | some (_, 0) => true
  | _ => false

/-- The guard `if (minObstructions > 0)` before the double-bend search
(`Infinity > 0` is true). -/
def minGtZero (st : BestState) : Bool :=
  match st with
  | none => true
  | some (_, m) => decide (0 < m)

/-- The inner `dy` loop of the single-bend search.  `(dx, dy) = (0, 0)` is
skipped by the `continue` (its `pathIsObstructed` conjunct is always true
when this loop runs); each evaluated offset scores the horizontal-first
path `[start, (midX+dx, start.y+dy), end]`, then — unless that path was
clear, which `break`s — the vertical-first path
`[start, (midX+dx, end.y+dy), end]`, `break`ing likewise on a clear hit. -/
def singleBendInner (obstacles : List Rect) (s e : Point) (midX dx : ℚ) :
    List ℚ → BestState → BestState
  | [], st => st
  | dy :: rest, st =>
    if dx = 0 ∧ dy = 0 then singleBendInner obstacles s e midX dx rest st
    else
      let path1 : List Point := [s, ⟨midX + dx, s.y + dy⟩, e]
      let path2 : List Point := [s, ⟨midX + dx, e.y + dy⟩, e]
      let obsCount1 := checkAndCountObstructions obstacles path1
      let st1 := updateBest st path1 obsCount1
      if obsCount1 = 0 then st1
      else
        let obsCount2 := checkAndCountObstructions obstacles path2
        let st2 := updateBest st1 path2 obsCount2
        if obsCount2 = 0 then st2
        else singleBendInner obstacles s e midX dx rest st2

/-- The outer `dx` loop of the single-bend search; after each inner loop,
`if (minObstructions === 0) break`. -/
def singleBendOuter (obstacles : List Rect) (s e : Point) (midX : ℚ) :
    List ℚ → BestState → BestState
  | [], st => st
  | dx :: rest, st =>
    let st' := singleBendInner obstacles s e midX dx offsets st
    if isMinZero st' then st' else singleBendOuter obstacles s e midX rest st'

/-- The innermost (`dy2`) loop of the double-bend search: score the
candidate `[start, (start.x+dx1, midY+dy1), (end.x+dx2, midY+dy2), end]`
and `break` once `minObstructions === 0`. -/
def doubleBendLoop4 (obstacles : List Rect) (s e : Point) (midY dx1 dy1 dx2 : ℚ) :
    List ℚ → BestState → BestState
  | [], st => st
  | dy2 :: rest, st =>
    let candidatePath : List Point :=
      [s, ⟨s.x + dx1, midY + dy1⟩, ⟨e.x + dx2, midY + dy2⟩, e]
    let obsCount := checkAndCountObstructions obstacles candidatePath
    let st' := updateBest st candidatePath obsCount
    if isMinZero st' then st'
    else doubleBendLoop4 obstacles s e midY dx1 dy1 dx2 rest st'

/-- The `dx2` loop of the double-bend search. -/
def doubleBendLoop3 (obstacles : List Rect) (s e : Point) (midY dx1 dy1 : ℚ) :
    List ℚ → BestState → BestState
  | [], st => st
  | dx2 :: rest, st =>
    let st' := doubleBendLoop4 obstacles s e midY dx1 dy1 dx2 offsets st
    if isMinZero st' then st' else doubleBendLoop3 obstacles s e midY dx1 dy1 rest st'

/-- The `dy1` loop of the double-bend search. -/
def doubleBendLoop2 (obstacles : List Rect) (s e : Point) (midY dx1 : ℚ) :
    List ℚ → BestState → BestState
  | [], st => st
  | dy1 :: rest, st =>
    let st' := doubleBendLoop3 obstacles s e midY dx1 dy1 offsets st
    if isMinZero st' then st' else doubleBendLoop2 obstacles s e midY dx1 rest st'

/-- The outermost (`dx1`) loop of the double-bend search. -/
def doubleBendLoop1 (obstacles : List Rect) (s e : Point) (midY : ℚ) :
    List ℚ → BestState → BestState
  | [], st => st
  | dx1 :: rest, st =>
    let st' := doubleBendLoop2 obstacles s e midY dx1 offsets st
    if isMinZero st' then st' else doubleBendLoop1 obstacles s e midY rest st'

/-- The full candidate search of `calculatePath` once the direct path is
known to be obstructed: the single-bend loops starting from
`(null, Infinity)`, then — only `if (minObstructions > 0)` — the
double-bend loops. -/
def searchBest (s e : Point) (obstacles : List Rect) : BestState :=
  let st1 := singleBendOuter obstacles s e ((s.x + e.x) / 2) offsets none
  if minGtZero st1 then doubleBendLoop1 obstacles s e ((s.y + e.y) / 2) offsets st1
  else st1

/-- `calculatePath` for resolved anchor points: return the direct path
`[start, end]` when no obstacle obstructs it; otherwise run the candidate
search and return `bestPath` when one was assigned, falling back to the
edge's existing `pointsList` (or the direct path when that list is empty). -/
def calculatePathAux (s e : Point) (pointsList : List Point)
    (obstacles : List Rect) : List Point :=
  if obstacles.any (fun r => isPathIntersectingNode [s, e] r) then
    match searchBest s e obstacles with
    | some (best, _) => best
    | none => if 0 < pointsList.length then pointsList else [s, e]
  else [s, e]

/-- `calculatePath(edge, sourceNode, targetNode, allNodes)`.  The two
`Option Point` arguments are the resolved anchors
`edge.startPoint || sourceNode.getAnchorPosition()` and
`edge.endPoint || targetNode.getAnchorPosition()`; when either is
unavailable the function returns `edge.pointsList` unchanged.  `obstacles`
is the list of bounding boxes of `allNodes` minus the edge's own source and
target node. -/
def calculatePath (startPoint endPoint : Option Point)
    (pointsList : List Point) (obstacles : List Rect) : List Point :=
  match startPoint, endPoint with
  | some s, some e => calculatePathAux s e pointsList obstacles
  | _, _ => pointsList

/-- Helper of `dedupConsecutive`: `prev` is the previous point of the
original list (`self[index - 1]`), whether or not it was kept. -/
def dedupConsecutiveGo (prev : Point) : List Point → List Point
  | [] => []
  | q :: rest => if q = prev then dedupConsecutiveGo q rest
                 else q :: dedupConsecutiveGo q rest

/-- The consecutive-duplicate filter of the TypeScript `AvoidancePlugin`
method `updateEdgePath`: keep a point iff it is the first one or differs
from the previous point of the original list
(`index === 0 || !(point.x === self[index-1].x && point.y === self[index-1].y)`). -/
def dedupConsecutive (l : List Point) : List Point :=
  match l with
  | [] => []
  | p :: rest => p :: dedupConsecutiveGo p rest

/-- Property checker: the list has two consecutive equal points. -/
def hasConsecutiveDup : List Point → Bool
  | [] => false
  | [_] => false
  | p :: q :: rest => decide (p = q) || hasConsecutiveDup (q :: rest)

/-- The specification's `pathObstructionCount(points, obstacles)` (spec
§4.1), stated in the spec's own words for comparison with the code's
`checkAndCountObstructions`: the sum, over every consecutive point pair of
the path and every obstacle, of 1 if the segment intersects the obstacle's
rectangle, else 0 — so it counts (segment, obstacle) pairs. -/
def pathObstructionCount (points : List Point) (obstacles : List Rect) : Nat :=
  ((segPairs points).map fun pq =>
    (obstacles.map fun r => if isLineIntersectingRect pq.1 pq.2 r then 1 else 0).sum).sum

/-- A path produced by the candidate generator: a single-bend path
`[start, bend, end]` or a double-bend path `[start, bend1, bend2, end]`. -/
def candidateShape (s e : Point) (p : List Point) : Prop :=
  (∃ q, p = [s, q, e]) ∨ (∃ q r, p = [s, q, r, e])

/-- Invariant of the selector state: whenever `bestPath` is assigned, it is
one of the generated candidates (so it runs from `start` to `end`) and
`minObstructions` is exactly its obstruction count. -/
def stateOK (s e : Point) (obstacles : List Rect) : BestState → Prop
  | none => True
  | some (p, m) => candidateShape s e p ∧ checkAndCountObstructions obstacles p = m

/-- `minObstructions` is assigned and at most `c`. -/
def minLE (st : BestState) (c : Nat) : Prop :=
  ∃ p m, st = some (p, m) ∧ m ≤ c

theorem updateBest_isSome (st : BestState) (path : List Point) (c : Nat) :
    (updateBest st path c).isSome := by
  unfold updateBest
  match st with
  | none => rfl
  | some (b, m) =>
    dsimp only
    split <;> rfl

theorem singleBendInner_isSome_of (obstacles : List Rect) (s e : Point)
    (midX dx : ℚ) (dys : List ℚ) (st : BestState) (h : st.isSome) :
    (singleBendInner obstacles s e midX dx dys st).isSome := by
  induction dys generalizing st with
  | nil => simpa [singleBendInner] using h
  | cons dy rest ih =>
    unfold singleBendInner
    split
    · exact ih st h
    · dsimp only
      split
      · exact updateBest_isSome ..
      · split
        · exact updateBest_isSome ..
        · exact ih _ (updateBest_isSome ..)

theorem singleBendInner_isSome (obstacles : List Rect) (s e : Point)
    (midX dx : ℚ) (dys : List ℚ) (st : BestState)
    (h : st.isSome = true ∨ ∃ dy ∈ dys, ¬(dx = 0 ∧ dy = 0)) :
    (singleBendInner obstacles s e midX dx dys st).isSome := by
  induction dys generalizing st with
  | nil =>
    rcases h with h | ⟨dy, hmem, _⟩
    · simpa [singleBendInner] using h
    · exact absurd hmem (List.not_mem_nil dy)
  | cons dy rest ih =>
    unfold singleBendInner
    split
    · rename_i hzero
      refine ih st ?_
      rcases h with h | ⟨dy', hmem, hne⟩
      · exact Or.inl h
      · rcases List.mem_cons.mp hmem with rfl | hmem'
        · exact absurd hzero hne
        · exact Or.inr ⟨dy', hmem', hne⟩
    · dsimp only
      split
      · exact updateBest_isSome ..
      · split
        · exact updateBest_isSome ..
        · exact singleBendInner_isSome_of _ _ _ _ _ _ _ (updateBest_isSome ..)

theorem singleBendOuter_isSome_of (obstacles : List Rect) (s e : Point)
    (midX : ℚ) (dxs : List ℚ) (st : BestState) (h : st.isSome) :
    (singleBendOuter obstacles s e midX dxs st).isSome := by
  induction dxs generalizing st with
  | nil => simpa [singleBendOuter] using h
  | cons dx rest ih =>
    unfold singleBendOuter
    dsimp only
    split
    · exact singleBendInner_isSome_of _ _ _ _ _ _ _ h
    · exact ih _ (singleBendInner_isSome_of _ _ _ _ _ _ _ h)

theorem doubleBendLoop4_isSome_of (obstacles : List Rect) (s e : Point)
    (midY dx1 dy1 dx2 : ℚ) (dys : List ℚ) (st : BestState) (h : st.isSome) :
    (doubleBendLoop4 obstacles s e midY dx1 dy1 dx2 dys st).isSome := by
  induction dys generalizing st with
  | nil => simpa [doubleBendLoop4] using h
  | cons dy2 rest ih =>
    unfold doubleBendLoop4
    dsimp only
    split
    · exact updateBest_isSome ..
    · exact ih _ (updateBest_isSome ..)

theorem doubleBendLoop3_isSome_of (obstacles : List Rect) (s e : Point)
    (midY dx1 dy1 : ℚ) (dxs : List ℚ) (st : BestState) (h : st.isSome) :
    (doubleBendLoop3 obstacles s e midY dx1 dy1 dxs st).isSome := by
  induction dxs generalizing st with
  | nil => simpa [doubleBendLoop3] using h
  | cons dx2 rest ih =>
    unfold doubleBendLoop3
    dsimp only
    split
    · exact doubleBendLoop4_isSome_of _ _ _ _ _ _ _ _ _ h
    · exact ih _ (doubleBendLoop4_isSome_of _ _ _ _ _ _ _ _ _ h)

theorem doubleBendLoop2_isSome_of (obstacles : List Rect) (s e : Point)
    (midY dx1 : ℚ) (dys : List ℚ) (st : BestState) (h : st.isSome) :
    (doubleBendLoop2 obstacles s e midY dx1 dys st).isSome := by
  induction dys generalizing st with
  | nil => simpa [doubleBendLoop2] using h
  | cons dy1 rest ih =>
    unfold doubleBendLoop2
    dsimp only
    split
    · exact doubleBendLoop3_isSome_of _ _ _ _ _ _ _ _ h
    · exact ih _ (doubleBendLoop3_isSome_of _ _ _ _ _ _ _ _ h)

theorem doubleBendLoop1_isSome_of (obstacles : List Rect) (s e : Point)
    (midY : ℚ) (dxs : List ℚ) (st : BestState) (h : st.isSome) :
    (doubleBendLoop1 obstacles s e midY dxs st).isSome := by
  induction dxs generalizing st with
  | nil => simpa [doubleBendLoop1] using h
  | cons dx1 rest ih =>
    unfold doubleBendLoop1
    dsimp only
    split
    · exact doubleBendLoop2_isSome_of _ _ _ _ _ _ _ h
    · exact ih _ (doubleBendLoop2_isSome_of _ _ _ _ _ _ _ h)

theorem searchBest_isSome (s e : Point) (obstacles : List Rect) :
    (searchBest s e obstacles).isSome := by
  unfold searchBest
  dsimp only
  have h1 : (singleBendOuter obstacles s e ((s.x + e.x) / 2) offsets none).isSome := by
    show (singleBendOuter obstacles s e ((s.x + e.x) / 2)
      (0 :: [20, -20, 40, -40, 60, -60]) none).isSome
    unfold singleBendOuter
    dsimp only
    have h2 : (singleBendInner obstacles s e ((s.x + e.x) / 2) 0 offsets none).isSome :=
      singleBendInner_isSome _ _ _ _ _ _ _
        (Or.inr ⟨20, by simp [offsets], by norm_num⟩)
    split
    · exact h2
    · exact singleBendOuter_isSome_of _ _ _ _ _ _ h2
  split
  · exact doubleBendLoop1_isSome_of _ _ _ _ _ _ h1
  · exact h1

theorem updateBest_stateOK {s e : Point} {obstacles : List Rect} {st : BestState}
    {path : List Point} {c : Nat} (hst : stateOK s e obstacles st)
    (hshape : candidateShape s e path)
    (hc : checkAndCountObstructions obstacles path = c) :
    stateOK s e obstacles (updateBest st path c) := by
  unfold updateBest
  match st with
  | none => exact ⟨hshape, hc⟩
  | some (b, m) =>
    dsimp only
    split
    · exact ⟨hshape, hc⟩
    · exact hst

theorem singleBendInner_stateOK {s e : Point} {obstacles : List Rect}
    {midX dx : ℚ} (dys : List ℚ) {st : BestState}
    (hst : stateOK s e obstacles st) :
    stateOK s e obstacles (singleBendInner obstacles s e midX dx dys st) := by
  induction dys generalizing st with
  | nil => simpa [singleBendInner] using hst
  | cons dy rest ih =>
    unfold singleBendInner
    split
    · exact ih hst
    · dsimp only
      split
      · exact updateBest_stateOK hst (Or.inl ⟨_, rfl⟩) rfl
      · split
        · exact updateBest_stateOK (updateBest_stateOK hst (Or.inl ⟨_, rfl⟩) rfl)
            (Or.inl ⟨_, rfl⟩) rfl
        · exact ih (updateBest_stateOK (updateBest_stateOK hst (Or.inl ⟨_, rfl⟩) rfl)
            (Or.inl ⟨_, rfl⟩) rfl)

theorem singleBendOuter_stateOK {s e : Point} {obstacles : List Rect}
    {midX : ℚ} (dxs : List ℚ) {st : BestState}
    (hst : stateOK s e obstacles st) :
    stateOK s e obstacles (singleBendOuter obstacles s e midX dxs st) := by
  induction dxs generalizing st with
  | nil => simpa [singleBendOuter] using hst
  | cons dx rest ih =>
    unfold singleBendOuter
    dsimp only
    split
    · exact singleBendInner_stateOK _ hst
    · exact ih (singleBendInner_stateOK _ hst)

theorem doubleBendLoop4_stateOK {s e : Point} {obstacles : List Rect}
    {midY dx1 dy1 dx2 : ℚ} (dys : List ℚ) {st : BestState}
    (hst : stateOK s e obstacles st) :
    stateOK s e obstacles (doubleBendLoop4 obstacles s e midY dx1 dy1 dx2 dys st) := by
  induction dys generalizing st with
  | nil => simpa [doubleBendLoop4] using hst
  | cons dy2 rest ih =>
    unfold doubleBendLoop4
    dsimp only
    split
    · exact updateBest_stateOK hst (Or.inr ⟨_, _, rfl⟩) rfl
    · exact ih (updateBest_stateOK hst (Or.inr ⟨_, _, rfl⟩) rfl)

theorem doubleBendLoop3_stateOK {s e : Point} {obstacles : List Rect}
    {midY dx1 dy1 : ℚ} (dxs : List ℚ) {st : BestState}
    (hst : stateOK s e obstacles st) :
    stateOK s e obstacles (doubleBendLoop3 obstacles s e midY dx1 dy1 dxs st) := by
  induction dxs generalizing st with
  | nil => simpa [doubleBendLoop3] using hst
  | cons dx2 rest ih =>
    unfold doubleBendLoop3
    dsimp only
    split
    · exact doubleBendLoop4_stateOK _ hst
    · exact ih (doubleBendLoop4_stateOK _ hst)

theorem doubleBendLoop2_stateOK {s e : Point} {obstacles : List Rect}
    {midY dx1 : ℚ} (dys : List ℚ) {st : BestState}
    (hst : stateOK s e obstacles st) :
    stateOK s e obstacles (doubleBendLoop2 obstacles s e midY dx1 dys st) := by
  induction dys generalizing st with
  | nil => simpa [doubleBendLoop2] using hst
  | cons dy1 rest ih =>
    unfold doubleBendLoop2
    dsimp only
    split
    · exact doubleBendLoop3_stateOK _ hst
    · exact ih (doubleBendLoop3_stateOK _ hst)

theorem doubleBendLoop1_stateOK {s e : Point} {obstacles : List Rect}
    {midY : ℚ} (dxs : List ℚ) {st : BestState}
    (hst : stateOK s e obstacles st) :
    stateOK s e obstacles (doubleBendLoop1 obstacles s e midY dxs st) := by
  induction dxs generalizing st with
  | nil => simpa [doubleBendLoop1] using hst
  | cons dx1 rest ih =>
    unfold doubleBendLoop1
    dsimp only
    split
    · exact doubleBendLoop2_stateOK _ hst
    · exact ih (doubleBendLoop2_stateOK _ hst)

theorem searchBest_stateOK (s e : Point) (obstacles : List Rect) :
    stateOK s e obstacles (searchBest s e obstacles) := by
  unfold searchBest
  dsimp only
  have h1 : stateOK s e obstacles
      (singleBendOuter obstacles s e ((s.x + e.x) / 2) offsets none) :=
    singleBendOuter_stateOK _ trivial
  split
  · exact doubleBendLoop1_stateOK _ h1
  · exact h1

theorem updateBest_minLE_self (st : BestState) (path : List Point) (c : Nat) :
    minLE (updateBest st path c) c := by
  unfold updateBest
  match st with
  | none => exact ⟨path, c, rfl, le_refl c⟩
  | some (b, m) =>
    dsimp only
    split
    · exact ⟨path, c, rfl, le_refl c⟩
    · rename_i hlt
      exact ⟨b, m, rfl, Nat.le_of_not_lt hlt⟩

theorem updateBest_minLE_mono {st : BestState} {c : Nat}
    (h : minLE st c) (path : List Point) (c' : Nat) :
    minLE (updateBest st path c') c := by
  obtain ⟨p, m, hst, hm⟩ := h
  subst hst
  unfold updateBest
  dsimp only
  split
  · rename_i hlt
    exact ⟨path, c', rfl, le_trans (Nat.le_of_lt hlt) hm⟩
  · exact ⟨p, m, rfl, hm⟩

theorem singleBendInner_minLE_mono {obstacles : List Rect} {s e : Point}
    {midX dx : ℚ} (dys : List ℚ) {st : BestState} {c : Nat}
    (h : minLE st c) :
    minLE (singleBendInner obstacles s e midX dx dys st) c := by
  induction dys generalizing st with
  | nil => simpa [singleBendInner] using h
  | cons dy rest ih =>
    unfold singleBendInner
    split
    · exact ih h
    · dsimp only
      split
      · exact updateBest_minLE_mono h _ _
      · split
        · exact updateBest_minLE_mono (updateBest_minLE_mono h _ _) _ _
        · exact ih (updateBest_minLE_mono (updateBest_minLE_mono h _ _) _ _)

theorem singleBendOuter_minLE_mono {obstacles : List Rect} {s e : Point}
    {midX : ℚ} (dxs : List ℚ) {st : BestState} {c : Nat}
    (h : minLE st c) :
    minLE (singleBendOuter obstacles s e midX dxs st) c := by
  induction dxs generalizing st with
  | nil => simpa [singleBendOuter] using h
  | cons dx rest ih =>
    unfold singleBendOuter
    dsimp only
    split
    · exact singleBendInner_minLE_mono _ h
    · exact ih (singleBendInner_minLE_mono _ h)

theorem doubleBendLoop4_minLE_mono {obstacles : List Rect} {s e : Point}
    {midY dx1 dy1 dx2 : ℚ} (dys : List ℚ) {st : BestState} {c : Nat}
    (h : minLE st c) :
    minLE (doubleBendLoop4 obstacles s e midY dx1 dy1 dx2 dys st) c := by
  induction dys generalizing st with
  | nil => simpa [doubleBendLoop4] using h
  | cons dy2 rest ih =>
    unfold doubleBendLoop4
    dsimp only
    split
    · exact updateBest_minLE_mono h _ _
    · exact ih (updateBest_minLE_mono h _ _)

theorem doubleBendLoop3_minLE_mono {obstacles : List Rect} {s e : Point}
    {midY dx1 dy1 : ℚ} (dxs : List ℚ) {st : BestState} {c : Nat}
    (h : minLE st c) :
    minLE (doubleBendLoop3 obstacles s e midY dx1 dy1 dxs st) c := by
  induction dxs generalizing st with
  | nil => simpa [doubleBendLoop3] using h
  | cons dx2 rest ih =>
    unfold doubleBendLoop3
    dsimp only
    split
    · exact doubleBendLoop4_minLE_mono _ h
    · exact ih (doubleBendLoop4_minLE_mono _ h)

theorem doubleBendLoop2_minLE_mono {obstacles : List Rect} {s e : Point}
    {midY dx1 : ℚ} (dys : List ℚ) {st : BestState} {c : Nat}
    (h : minLE st c) :
    minLE (doubleBendLoop2 obstacles s e midY dx1 dys st) c := by
  induction dys generalizing st with
  | nil => simpa [doubleBendLoop2] using h
  | cons dy1 rest ih =>
    unfold doubleBendLoop2
    dsimp only
    split
    · exact doubleBendLoop3_minLE_mono _ h
    · exact ih (doubleBendLoop3_minLE_mono _ h)

theorem doubleBendLoop1_minLE_mono {obstacles : List Rect} {s e : Point}
    {midY : ℚ} (dxs : List ℚ) {st : BestState} {c : Nat}
    (h : minLE st c) :
    minLE (doubleBendLoop1 obstacles s e midY dxs st) c := by
  induction dxs generalizing st with
  | nil => simpa [doubleBendLoop1] using h
  | cons dx1 rest ih =>
    unfold doubleBendLoop1
    dsimp only
    split
    · exact doubleBendLoop2_minLE_mono _ h
    · exact ih (doubleBendLoop2_minLE_mono _ h)

theorem singleBendInner_first_minLE (obstacles : List Rect) (s e : Point)
    (midX : ℚ) :
    minLE (singleBendInner obstacles s e midX 0 offsets none)
      (checkAndCountObstructions obstacles [s, ⟨midX + 0, s.y + 20⟩, e]) := by
  show minLE (singleBendInner obstacles s e midX 0
      (0 :: 20 :: [-20, 40, -40, 60, -60]) none) _
  unfold singleBendInner
  rw [if_pos ⟨rfl, rfl⟩]
  unfold singleBendInner
  rw [if_neg (by norm_num)]
  dsimp only
  split
  · exact updateBest_minLE_self ..
  · split
    · exact updateBest_minLE_mono (updateBest_minLE_self ..) _ _
    · exact singleBendInner_minLE_mono _
        (updateBest_minLE_mono (updateBest_minLE_self ..) _ _)

theorem searchBest_minLE (s e : Point) (obstacles : List Rect) :
    minLE (searchBest s e obstacles)
      (checkAndCountObstructions obstacles
        [s, ⟨(s.x + e.x) / 2, s.y + 20⟩, e]) := by
  have hfirst := singleBendInner_first_minLE obstacles s e ((s.x + e.x) / 2)
  rw [add_zero ((s.x + e.x) / 2)] at hfirst
  unfold searchBest
  dsimp only
  have h1 : minLE (singleBendOuter obstacles s e ((s.x + e.x) / 2) offsets none)
      (checkAndCountObstructions obstacles [s, ⟨(s.x + e.x) / 2, s.y + 20⟩, e]) := by
    show minLE (singleBendOuter obstacles s e ((s.x + e.x) / 2)
      (0 :: [20, -20, 40, -40, 60, -60]) none) _
    unfold singleBendOuter
    dsimp only
    split
    · exact hfirst
    · exact singleBendOuter_minLE_mono _ hfirst
  split
  · exact doubleBendLoop1_minLE_mono _ h1
  · exact h1

theorem isPathIntersectingNode_pair (a b : Point) (r : Rect) :
    isPathIntersectingNode [a, b] r = isLineIntersectingRect a b r := by
  simp [isPathIntersectingNode, segPairs]

theorem dedupConsecutiveGo_no_dup (rest : List Point) :
    ∀ prev, hasConsecutiveDup (prev :: dedupConsecutiveGo prev rest) = false := by
  induction rest with
  | nil => intro prev; rfl
  | cons q rest' ih =>
    intro prev
    unfold dedupConsecutiveGo
    split
    · rename_i h
      subst h
      exact ih q
    · rename_i h
      show hasConsecutiveDup (prev :: q :: dedupConsecutiveGo q rest') = false
      unfold hasConsecutiveDup
      rw [ih q, decide_eq_false (fun hpq => h hpq.symm)]
      rfl

theorem calculatePathAux_obstructed_eq (s e : Point) (pointsList : List Point)
    (obstacles : List Rect)
    (h : obstacles.any (fun r => isPathIntersectingNode [s, e] r) = true) :
    ∃ p m, searchBest s e obstacles = some (p, m) ∧
      calculatePathAux s e pointsList obstacles = p := by
  obtain ⟨⟨p, m⟩, hp⟩ := Option.isSome_iff_exists.mp (searchBest_isSome s e obstacles)
  refine ⟨p, m, hp, ?_⟩
  unfold calculatePathAux
  rw [if_pos h, hp]

theorem calculatePathAux_clear_eq (s e : Point) (pointsList : List Point)
    (obstacles : List Rect)
    (h : obstacles.any (fun r => isPathIntersectingNode [s, e] r) = false) :
    calculatePathAux s e pointsList obstacles = [s, e] := by
  unfold calculatePathAux
  rw [if_neg (by simp [h])]

/-- C1: for every routing request whose start and end anchors are resolved,
the path returned by `calculatePath` begins with the start anchor and ends
with the end anchor. -/
theorem calculatePath_anchor_preservation (s e : Point) (pointsList : List Point)
    (obstacles : List Rect) :
    (calculatePath (some s) (some e) pointsList obstacles).head? = some s ∧
    (calculatePath (some s) (some e) pointsList obstacles).getLast? = some e := by
  show (calculatePathAux s e pointsList obstacles).head? = some s ∧
    (calculatePathAux s e pointsList obstacles).getLast? = some e
  cases hobs : obstacles.any (fun r => isPathIntersectingNode [s, e] r) with
  | true =>
    obtain ⟨p, m, hp, heq⟩ := calculatePathAux_obstructed_eq s e pointsList obstacles hobs
    have hok := searchBest_stateOK s e obstacles
    rw [hp] at hok
    obtain ⟨hshape, -⟩ := hok
    rw [heq]
    rcases hshape with ⟨q, rfl⟩ | ⟨q, r, rfl⟩ <;> exact ⟨rfl, rfl⟩
  | false =>
    rw [calculatePathAux_clear_eq s e pointsList obstacles hobs]
    exact ⟨rfl, rfl⟩

/-- C9: whenever the anchors are resolved and the direct path is
obstructed, the search always assigns a best path, so the terminal
fallback returning the edge's pre-existing `pointsList` is unreachable and
the result is a generated candidate with exactly 3 or 4 points. -/
theorem calculatePath_obstructed_returns_candidate (s e : Point)
    (pointsList : List Point) (obstacles : List Rect)
    (h : obstacles.any (fun r => isPathIntersectingNode [s, e] r) = true) :
    candidateShape s e (calculatePath (some s) (some e) pointsList obstacles) ∧
    ((calculatePath (some s) (some e) pointsList obstacles).length = 3 ∨
     (calculatePath (some s) (some e) pointsList obstacles).length = 4) := by
  show candidateShape s e (calculatePathAux s e pointsList obstacles) ∧
    ((calculatePathAux s e pointsList obstacles).length = 3 ∨
     (calculatePathAux s e pointsList obstacles).length = 4)
  obtain ⟨p, m, hp, heq⟩ := calculatePathAux_obstructed_eq s e pointsList obstacles h
  have hok := searchBest_stateOK s e obstacles
  rw [hp] at hok
  obtain ⟨hshape, -⟩ := hok
  rw [heq]
  refine ⟨hshape, ?_⟩
  rcases hshape with ⟨q, rfl⟩ | ⟨q, r, rfl⟩
  · exact Or.inl rfl
  · exact Or.inr rfl

/-- C9 witness: with the spec's scenario obstacle `(80, -20)-(120, 20)` the
direct path from `(0, 0)` to `(200, 0)` is obstructed and the router
returns a candidate path of 3 or 4 points. -/
theorem calculatePath_obstructed_returns_candidate_witness :
    ([(⟨80, -20, 120, 20⟩ : Rect)].any
        (fun r => isPathIntersectingNode [⟨0, 0⟩, ⟨200, 0⟩] r) = true) ∧
    (candidateShape ⟨0, 0⟩ ⟨200, 0⟩
        (calculatePath (some ⟨0, 0⟩) (some ⟨200, 0⟩) [] [⟨80, -20, 120, 20⟩]) ∧
     ((calculatePath (some ⟨0, 0⟩) (some ⟨200, 0⟩) [] [⟨80, -20, 120, 20⟩]).length = 3 ∨
      (calculatePath (some ⟨0, 0⟩) (some ⟨200, 0⟩) [] [⟨80, -20, 120, 20⟩]).length = 4)) :=
  ⟨by with_unfolding_all decide,
   calculatePath_obstructed_returns_candidate ⟨0, 0⟩ ⟨200, 0⟩ [] [⟨80, -20, 120, 20⟩]
     (by with_unfolding_all decide)⟩

/-- C2 (counterexample): the claim "the obstruction count (spec §4.1, the
(segment, obstacle) pair count) of the returned path is ≤ the obstruction
count of the direct path" fails at start `(0, 0)`, end `(200, 0)` with the
single obstacle `(-1000, -1000)-(1000, 1000)`: every candidate crosses the
obstacle, so the selector keeps the first evaluated candidate
`[(0, 0), (100, 20), (200, 0)]`, whose two segments both intersect the
obstacle (pair count 2), while the direct path has pair count 1. -/
theorem calculatePath_obstruction_not_monotone :
    ¬ (pathObstructionCount
         (calculatePath (some ⟨0, 0⟩) (some ⟨200, 0⟩) [] [⟨-1000, -1000, 1000, 1000⟩])
         [⟨-1000, -1000, 1000, 1000⟩]
       ≤ pathObstructionCount [⟨0, 0⟩, ⟨200, 0⟩] [⟨-1000, -1000, 1000, 1000⟩]) := by
  with_unfolding_all decide

/-- C2 (amended): the selector ranks candidates by the number of obstacles
intersected, and the returned path's obstacle count is ≤ the obstacle count
of the first evaluated candidate `[start, ((start.x+end.x)/2, start.y+20), end]`
whenever the direct path is obstructed; it need not be ≤ the direct path's
count. -/
theorem calculatePath_count_le_first_candidate (s e : Point)
    (pointsList : List Point) (obstacles : List Rect)
    (h : obstacles.any (fun r => isPathIntersectingNode [s, e] r) = true) :
    checkAndCountObstructions obstacles
        (calculatePath (some s) (some e) pointsList obstacles)
      ≤ checkAndCountObstructions obstacles
        [s, ⟨(s.x + e.x) / 2, s.y + 20⟩, e] := by
  show checkAndCountObstructions obstacles (calculatePathAux s e pointsList obstacles) ≤ _
  obtain ⟨p, m, hp, heq⟩ := calculatePathAux_obstructed_eq s e pointsList obstacles h
  have hok := searchBest_stateOK s e obstacles
  have hmin := searchBest_minLE s e obstacles
  rw [hp] at hok
  obtain ⟨-, hcount⟩ := hok
  obtain ⟨p', m', hp', hm'⟩ := hmin
  rw [hp] at hp'
  obtain ⟨rfl, rfl⟩ : p = p' ∧ m = m' := by
    injection hp' with h1
    injection h1 with h2 h3
    exact ⟨h2, h3⟩
  rw [heq, hcount]
  exact hm'

/-- C2 witness: with the huge obstacle of the counterexample the direct
path is obstructed and the amended bound applies. -/
theorem calculatePath_count_le_first_candidate_witness :
    ([(⟨-1000, -1000, 1000, 1000⟩ : Rect)].any
        (fun r => isPathIntersectingNode [⟨0, 0⟩, ⟨200, 0⟩] r) = true) ∧
    checkAndCountObstructions [⟨-1000, -1000, 1000, 1000⟩]
        (calculatePath (some ⟨0, 0⟩) (some ⟨200, 0⟩) [] [⟨-1000, -1000, 1000, 1000⟩])
      ≤ checkAndCountObstructions [⟨-1000, -1000, 1000, 1000⟩]
        [⟨0, 0⟩, ⟨((0 : ℚ) + 200) / 2, (0 : ℚ) + 20⟩, ⟨200, 0⟩] :=
  ⟨by with_unfolding_all decide,
   calculatePath_count_le_first_candidate ⟨0, 0⟩ ⟨200, 0⟩ [] [⟨-1000, -1000, 1000, 1000⟩]
     (by with_unfolding_all decide)⟩

/-- C3 (counterexample): the count the selector uses is not the
(segment, obstacle) pair sum of spec §4.1: on the path
`[(0, 0), (5, 0), (10, 0)]` with the single obstacle `(0, -1)-(10, 1)`,
both segments intersect the obstacle, so the pair sum is 2 while
`checkAndCountObstructions` is 1. -/
theorem selector_count_is_not_pair_count :
    ¬ (checkAndCountObstructions [⟨0, -1, 10, 1⟩] [⟨0, 0⟩, ⟨5, 0⟩, ⟨10, 0⟩]
       = pathObstructionCount [⟨0, 0⟩, ⟨5, 0⟩, ⟨10, 0⟩] [⟨0, -1, 10, 1⟩]) := by
  with_unfolding_all decide

/-- C3 (amended): the obstruction count the selector uses sums, over every
obstacle, 1 if some consecutive point pair of the path intersects that
obstacle's rectangle, else 0 — per obstacle, not per (segment, obstacle)
pair — where a path intersects an obstacle iff one of its consecutive
segments does. -/
theorem selector_count_per_obstacle (obstacles : List Rect) (p : List Point) :
    checkAndCountObstructions obstacles p =
      (obstacles.map fun r => if isPathIntersectingNode p r then 1 else 0).sum ∧
    ∀ r : Rect, isPathIntersectingNode p r = true ↔
      ∃ pq ∈ segPairs p, isLineIntersectingRect pq.1 pq.2 r = true := by
  constructor
  · induction obstacles with
    | nil => rfl
    | cons r rest ih =>
      simp only [checkAndCountObstructions, List.countP_cons, List.map_cons,
        List.sum_cons] at ih ⊢
      rw [ih]
      split <;> omega
  · intro r
    simp [isPathIntersectingNode, List.any_eq_true]

/-- C4 (counterexample): `calculatePath` itself does not collapse
consecutive duplicates: with coincident anchors `(0, 0)` and no obstacles
it returns `[(0, 0), (0, 0)]`, which has two consecutive equal points. -/
theorem calculatePath_can_return_consecutive_dup :
    hasConsecutiveDup (calculatePath (some ⟨0, 0⟩) (some ⟨0, 0⟩) [] []) = true := by
  with_unfolding_all decide

/-- C4 (amended): the consecutive-duplicate collapse happens in the
TypeScript plugin's `updateEdgePath` filter, not in `calculatePath`: the
filtered list it applies to the edge never contains two consecutive equal
points. -/
theorem dedupConsecutive_no_consecutive_dup (l : List Point) :
    hasConsecutiveDup (dedupConsecutive l) = false := by
  cases l with
  | nil => rfl
  | cons p rest => exact dedupConsecutiveGo_no_dup rest p

/-- C5: if no obstacle's rectangle intersects the segment from start to
end — in particular when the obstacle set is empty — the router returns
exactly the two-point direct path `[start, end]`, inserting no bends. -/
theorem calculatePath_clear_direct (s e : Point) (pointsList : List Point)
    (obstacles : List Rect)
    (h : ∀ r ∈ obstacles, isLineIntersectingRect s e r = false) :
    calculatePath (some s) (some e) pointsList obstacles = [s, e] := by
  show calculatePathAux s e pointsList obstacles = [s, e]
  refine calculatePathAux_clear_eq s e pointsList obstacles ?_
  simp only [List.any_eq_false]
  intro r hr
  rw [isPathIntersectingNode_pair]
  simp [h r hr]

/-- C5 witness: a far-away obstacle does not intersect the segment from
`(0, 0)` to `(200, 0)`, so the direct path is returned. -/
theorem calculatePath_clear_direct_witness :
    (∀ r ∈ [(⟨500, 500, 600, 600⟩ : Rect)],
        isLineIntersectingRect ⟨0, 0⟩ ⟨200, 0⟩ r = false) ∧
    calculatePath (some ⟨0, 0⟩) (some ⟨200, 0⟩) [] [⟨500, 500, 600, 600⟩]
      = [⟨0, 0⟩, ⟨200, 0⟩] :=
  ⟨by with_unfolding_all decide,
   calculatePath_clear_direct ⟨0, 0⟩ ⟨200, 0⟩ [] [⟨500, 500, 600, 600⟩]
     (by with_unfolding_all decide)⟩

/-- C6: if the start or the end point is unavailable, `calculatePath`
emits no new geometry and returns the edge's existing `pointsList`
unchanged (the MissingAnchor case). -/
theorem calculatePath_missing_anchor (startPoint endPoint : Option Point)
    (pointsList : List Point) (obstacles : List Rect) :
    calculatePath none endPoint pointsList obstacles = pointsList ∧
    calculatePath startPoint none pointsList obstacles = pointsList := by
  constructor
  · cases endPoint <;> rfl
  · cases startPoint <;> rfl

/-- C7: rectangle membership is boundary-inclusive: if an endpoint of the
segment satisfies `minX ≤ x ≤ maxX` and `minY ≤ y ≤ maxY` (boundary
equality included), the segment-rectangle intersection test returns true. -/
theorem isLineIntersectingRect_endpoint_inclusive (p1 p2 : Point) (r : Rect)
    (h : (r.minX ≤ p1.x ∧ p1.x ≤ r.maxX ∧ r.minY ≤ p1.y ∧ p1.y ≤ r.maxY) ∨
         (r.minX ≤ p2.x ∧ p2.x ≤ r.maxX ∧ r.minY ≤ p2.y ∧ p2.y ≤ r.maxY)) :
    isLineIntersectingRect p1 p2 r = true := by
  have hb : pointInRectB p1 r = true ∨ pointInRectB p2 r = true := by
    rcases h with ⟨h1, h2, h3, h4⟩ | ⟨h1, h2, h3, h4⟩
    · exact Or.inl (by simp [pointInRectB, h1, h2, h3, h4])
    · exact Or.inr (by simp [pointInRectB, h1, h2, h3, h4])
  unfold isLineIntersectingRect
  split
  · rename_i hz
    obtain ⟨hx, hy⟩ := hz
    rcases hb with hb | hb
    · exact hb
    · simpa [pointInRectB, hx, hy] using hb
  · split
    · rfl
    · split
      · rfl
      · rename_i hb1 hb2
        rcases hb with hb | hb
        · exact absurd hb hb1
        · exact absurd hb hb2

/-- C7 witness: the point `(0, 5)` lies exactly on the left boundary of
the rectangle `(0, 0)-(10, 10)`, and the test reports an intersection. -/
theorem isLineIntersectingRect_endpoint_inclusive_witness :
    (((0 : ℚ) ≤ (0 : ℚ) ∧ (0 : ℚ) ≤ (10 : ℚ) ∧ (0 : ℚ) ≤ (5 : ℚ) ∧ (5 : ℚ) ≤ (10 : ℚ)) ∨
     ((0 : ℚ) ≤ (-5 : ℚ) ∧ (-5 : ℚ) ≤ (10 : ℚ) ∧ (0 : ℚ) ≤ (5 : ℚ) ∧ (5 : ℚ) ≤ (10 : ℚ))) ∧
    isLineIntersectingRect ⟨0, 5⟩ ⟨-5, 5⟩ ⟨0, 0, 10, 10⟩ = true :=
  ⟨Or.inl (by norm_num),
   isLineIntersectingRect_endpoint_inclusive ⟨0, 5⟩ ⟨-5, 5⟩ ⟨0, 0, 10, 10⟩
     (Or.inl (by norm_num))⟩

/-- C8: a zero-length segment is treated as a point-in-rect test, and
routing with coincident start and end points `(0, 0)` whose location lies
in no obstacle returns `[(0, 0), (0, 0)]`. -/
theorem zero_length_segment_point_test (p : Point) (r : Rect)
    (pointsList : List Point) (obstacles : List Rect)
    (h : ∀ rect ∈ obstacles, pointInRectB ⟨0, 0⟩ rect = false) :
    isLineIntersectingRect p p r = pointInRectB p r ∧
    calculatePath (some ⟨0, 0⟩) (some ⟨0, 0⟩) pointsList obstacles
      = [⟨0, 0⟩, ⟨0, 0⟩] := by
  constructor
  · unfold isLineIntersectingRect
    rw [if_pos ⟨rfl, rfl⟩]
  · show calculatePathAux ⟨0, 0⟩ ⟨0, 0⟩ pointsList obstacles = [⟨0, 0⟩, ⟨0, 0⟩]
    refine calculatePathAux_clear_eq _ _ pointsList obstacles ?_
    simp only [List.any_eq_false]
    intro r' hr'
    rw [isPathIntersectingNode_pair]
    unfold isLineIntersectingRect
    rw [if_pos ⟨rfl, rfl⟩]
    simp [h r' hr']

/-- C8 witness: with the single obstacle `(1, 1)-(2, 2)`, which does not
contain the origin, routing from `(0, 0)` to `(0, 0)` returns the
degenerate two-point path, and the zero-length test at `(3, 4)` against
`(0, 0)-(1, 1)` equals the point-in-rect test. -/
theorem zero_length_segment_point_test_witness :
    (∀ rect ∈ [(⟨1, 1, 2, 2⟩ : Rect)], pointInRectB ⟨0, 0⟩ rect = false) ∧
    (isLineIntersectingRect ⟨3, 4⟩ ⟨3, 4⟩ ⟨0, 0, 1, 1⟩ = pointInRectB ⟨3, 4⟩ ⟨0, 0, 1, 1⟩ ∧
     calculatePath (some ⟨0, 0⟩) (some ⟨0, 0⟩) [] [⟨1, 1, 2, 2⟩] = [⟨0, 0⟩, ⟨0, 0⟩]) :=
  ⟨by with_unfolding_all decide,
   zero_length_segment_point_test ⟨3, 4⟩ ⟨0, 0, 1, 1⟩ [] [⟨1, 1, 2, 2⟩]
     (by with_unfolding_all decide)⟩

/-- C10: the segment-segment intersection test is symmetric in its two
segments. -/
theorem doLineSegmentsIntersect_symm (p1 p2 p3 p4 : Point) :
    doLineSegmentsIntersect p1 p2 p3 p4 = doLineSegmentsIntersect p3 p4 p1 p2 := by
  unfold doLineSegmentsIntersect
  dsimp only
  generalize orientation p1 p2 p3 = o1
  generalize orientation p1 p2 p4 = o2
  generalize orientation p3 p4 p1 = o3
  generalize orientation p3 p4 p2 = o4
  generalize onSegment p1 p3 p2 = b1
  generalize onSegment p1 p4 p2 = b2
  generalize onSegment p3 p1 p4 = b3
  generalize onSegment p3 p2 p4 = b4
  split_ifs <;> tauto

end AvoidanceEdge
